import Mathlib

/-!
Verification of the cricket fantasy chat bot (src/bot.py and src/hostthis.py).

The shared mutable document `db` is modelled as a `Doc` of string-keyed
association lists with Python-dict update semantics (`aset` replaces in place
or appends at the end, `aerase` deletes, `asetd` is `dict.setdefault`).  The
in-process `locked_matches` table and the number of `save_db` calls are kept
next to the document in `BotState`.  Each Telegram handler that mutates state
is embedded as a pure function `BotState → BotState × Res`; where the two
source variants differ, both are embedded (`..._bot` for bot.py, `..._host`
for hostthis.py).
-/

/-- `d.get(k)` on a Python dict modelled as an association list. -/
def aget {α : Type} (k : String) : List (String × α) → Option α
  | [] => none
  | kv :: t => if kv.1 = k then some kv.2 else aget k t

/-- `d[k] = v`: replace the binding in place, or append a new one at the end. -/
def aset {α : Type} (k : String) (v : α) : List (String × α) → List (String × α)
  | [] => [(k, v)]
  | kv :: t => if kv.1 = k then (k, v) :: t else kv :: aset k v t

/-- `d.pop(k, None)`: remove the binding for `k` (dicts hold each key once). -/
def aerase {α : Type} (k : String) : List (String × α) → List (String × α)
  | [] => []
  | kv :: t => if kv.1 = k then aerase k t else kv :: aerase k t

/-- `d.get(k, default)`. -/
def agetD {α : Type} (k : String) (d : α) (l : List (String × α)) : α :=
  (aget k l).getD d

/-- `d.setdefault(k, v)`: insert `v` at the end only when `k` is absent. -/
def asetd {α : Type} (k : String) (v : α) (l : List (String × α)) : List (String × α) :=
  match aget k l with
  | some _ => l
  | none => aset k v l

/-- `d.get(u, {}).get(m)`: lookup in a two-level dict. -/
def get2 {α : Type} (u m : String) (l : List (String × List (String × α))) : Option α :=
  match aget u l with
  | none => none
  | some inner => aget m inner

/-- `d.get(u, {}).get(m, default)`. -/
def getD2 {α : Type} (u m : String) (d : α) (l : List (String × List (String × α))) : α :=
  (get2 u m l).getD d

/-- `d.setdefault(u, {})[m] = v`. -/
def set2 {α : Type} (u m : String) (v : α) (l : List (String × List (String × α))) :
    List (String × List (String × α)) :=
  aset u (aset m v (agetD u [] l)) l

/-- `d.setdefault(u, {}).setdefault(m, v)` (the insertion effect only). -/
def setd2 {α : Type} (u m : String) (v : α) (l : List (String × List (String × α))) :
    List (String × List (String × α)) :=
  aset u (asetd m v (agetD u [] l)) l

/-- `d.setdefault(u, {}).pop(m, None)`. -/
def pop2 {α : Type} (u m : String) (l : List (String × List (String × α))) :
    List (String × List (String × α)) :=
  aset u (aerase m (agetD u [] l)) l

/-- `for u in d: d[u].pop(m, None)` — the cascade used by `removematch`. -/
def eraseAll2 {α : Type} (m : String) (l : List (String × List (String × α))) :
    List (String × List (String × α)) :=
  l.map (fun kv => (kv.1, aerase m kv.2))

theorem aget_aset_self {α : Type} (k : String) (v : α) (l : List (String × α)) :
    aget k (aset k v l) = some v := by
  induction l with
  | nil => simp [aget, aset]
  | cons kv t ih =>
    by_cases h : kv.1 = k
    · simp [aset, h, aget]
    · simp [aset, h, aget, ih]

theorem aget_aset_ne {α : Type} {k' k : String} (h : k' ≠ k) (v : α) (l : List (String × α)) :
    aget k' (aset k v l) = aget k' l := by
  have hk : ¬ (k = k') := fun hh => h hh.symm
  induction l with
  | nil => simp [aget, aset, hk]
  | cons kv t ih =>
    by_cases hkv : kv.1 = k
    · subst hkv
      simp [aset, aget, hk]
    · simp [aset, hkv, aget, ih]

theorem aget_aerase_self {α : Type} (k : String) (l : List (String × α)) :
    aget k (aerase k l) = none := by
  induction l with
  | nil => simp [aget, aerase]
  | cons kv t ih =>
    by_cases h : kv.1 = k
    · simp [aerase, h, ih]
    · simp [aerase, h, aget, ih]

theorem aget_aerase_ne {α : Type} {k' k : String} (h : k' ≠ k) (l : List (String × α)) :
    aget k' (aerase k l) = aget k' l := by
  have hk : ¬ (k = k') := fun hh => h hh.symm
  induction l with
  | nil => simp [aerase]
  | cons kv t ih =>
    by_cases hkv : kv.1 = k
    · subst hkv
      simp [aerase, aget, hk, ih]
    · simp [aerase, hkv, aget, ih]

theorem aset_of_aget_self {α : Type} {k : String} {v : α} {l : List (String × α)}
    (h : aget k l = some v) : aset k v l = l := by
  induction l with
  | nil => simp [aget] at h
  | cons kv t ih =>
    by_cases hk : kv.1 = k
    · subst hk
      simp [aget] at h
      simp [aset, ← h]
    · simp [aget, hk] at h
      simp [aset, hk, ih h]

theorem aerase_aset_of_none {α : Type} {k : String} {l : List (String × α)}
    (h : aget k l = none) (v : α) : aerase k (aset k v l) = l := by
  induction l with
  | nil => simp [aset, aerase]
  | cons kv t ih =>
    by_cases hk : kv.1 = k
    · simp [aget, hk] at h
    · simp [aget, hk] at h
      simp [aset, hk, aerase, ih h]

theorem aget_asetd_self {α : Type} (k : String) (v : α) (l : List (String × α)) :
    aget k (asetd k v l) = some ((aget k l).getD v) := by
  rcases h : aget k l with _ | w
  · simp [asetd, h, aget_aset_self]
  · simp [asetd, h]

theorem aget_asetd_ne {α : Type} {k' k : String} (h : k' ≠ k) (v : α) (l : List (String × α)) :
    aget k' (asetd k v l) = aget k' l := by
  rcases hg : aget k l with _ | w
  · simp [asetd, hg, aget_aset_ne h]
  · simp [asetd, hg]

theorem asetd_of_aget_some {α : Type} {k : String} {w : α} {l : List (String × α)}
    (h : aget k l = some w) (v : α) : asetd k v l = l := by
  simp [asetd, h]

theorem get2_set2_self {α : Type} (u m : String) (v : α)
    (l : List (String × List (String × α))) : get2 u m (set2 u m v l) = some v := by
  simp [get2, set2, aget_aset_self]

theorem get2_set2_ne {α : Type} {u' m' u m : String} (h : u' ≠ u ∨ m' ≠ m) (v : α)
    (l : List (String × List (String × α))) : get2 u' m' (set2 u m v l) = get2 u' m' l := by
  rcases h with hu | hm
  · simp [get2, set2, aget_aset_ne hu]
  · by_cases hu : u' = u
    · subst hu
      simp only [get2, set2, aget_aset_self]
      rcases hg : aget u' l with _ | inner
      · simp [agetD, hg, aget_aset_ne hm, aget]
      · simp [agetD, hg, aget_aset_ne hm]
    · simp [get2, set2, aget_aset_ne hu]

theorem get2_setd2_self {α : Type} (u m : String) (v : α)
    (l : List (String × List (String × α))) :
    get2 u m (setd2 u m v l) = some (getD2 u m v l) := by
  simp only [setd2, get2, getD2, aget_aset_self, aget_asetd_self]
  rcases hg : aget u l with _ | inner
  · simp [agetD, hg, aget]
  · simp [agetD, hg, get2]

theorem get2_setd2_ne {α : Type} {u' m' u m : String} (h : u' ≠ u ∨ m' ≠ m) (v : α)
    (l : List (String × List (String × α))) : get2 u' m' (setd2 u m v l) = get2 u' m' l := by
  rcases h with hu | hm
  · simp [get2, setd2, aget_aset_ne hu]
  · by_cases hu : u' = u
    · subst hu
      simp only [get2, setd2, aget_aset_self]
      rcases hg : aget u' l with _ | inner
      · simp [agetD, hg, aget_asetd_ne hm, aget]
      · simp [agetD, hg, aget_asetd_ne hm]
    · simp [get2, setd2, aget_aset_ne hu]

theorem get2_pop2_self {α : Type} (u m : String)
    (l : List (String × List (String × α))) : get2 u m (pop2 u m l) = none := by
  simp [get2, pop2, aget_aset_self, aget_aerase_self]

theorem get2_pop2_ne {α : Type} {u' m' u m : String} (h : u' ≠ u ∨ m' ≠ m)
    (l : List (String × List (String × α))) : get2 u' m' (pop2 u m l) = get2 u' m' l := by
  rcases h with hu | hm
  · simp [get2, pop2, aget_aset_ne hu]
  · by_cases hu : u' = u
    · subst hu
      simp only [get2, pop2, aget_aset_self]
      rcases hg : aget u' l with _ | inner
      · simp [agetD, hg, aget_aerase_ne hm, aget]
      · simp [agetD, hg, aget_aerase_ne hm]
    · simp [get2, pop2, aget_aset_ne hu]

theorem aget_eraseAll2 {α : Type} (u m : String) (l : List (String × List (String × α))) :
    aget u (eraseAll2 m l) = (aget u l).map (aerase m) := by
  induction l with
  | nil => simp [eraseAll2, aget]
  | cons kv t ih =>
    by_cases h : kv.1 = u
    · simp [eraseAll2, aget, h]
    · simp only [eraseAll2, List.map_cons, aget, h, if_false]
      simpa [eraseAll2] using ih

theorem get2_eraseAll2_self {α : Type} (u m : String)
    (l : List (String × List (String × α))) : get2 u m (eraseAll2 m l) = none := by
  simp only [get2, aget_eraseAll2]
  rcases hg : aget u l with _ | inner
  · simp
  · simp [aget_aerase_self]

theorem get2_eraseAll2_ne {α : Type} {m' m : String} (h : m' ≠ m) (u : String)
    (l : List (String × List (String × α))) : get2 u m' (eraseAll2 m l) = get2 u m' l := by
  simp only [get2, aget_eraseAll2]
  rcases hg : aget u l with _ | inner
  · simp
  · simp [aget_aerase_ne h]

theorem set2_of_get2_self {α : Type} {u m : String} {v : α}
    {l : List (String × List (String × α))} (h : get2 u m l = some v) : set2 u m v l = l := by
  simp only [get2] at h
  rcases hg : aget u l with _ | inner
  · rw [hg] at h; cases h
  · rw [hg] at h
    simp only [set2, agetD, hg, Option.getD_some]
    rw [aset_of_aget_self h, aset_of_aget_self hg]

theorem setd2_of_get2_some {α : Type} {u m : String} {v : α}
    {l : List (String × List (String × α))} (h : get2 u m l = some v) (d : α) :
    setd2 u m d l = l := by
  simp only [get2] at h
  rcases hg : aget u l with _ | inner
  · rw [hg] at h; cases h
  · rw [hg] at h
    simp only [setd2, agetD, hg, Option.getD_some]
    rw [asetd_of_aget_some h, aset_of_aget_self hg]

theorem getD2_setd2 {α : Type} (u m : String) (d : α)
    (l : List (String × List (String × α))) :
    getD2 u m d (setd2 u m d l) = getD2 u m d l := by
  simp [getD2, get2_setd2_self]

theorem get2_of_getD2_ne {α : Type} {u m : String} {d : α}
    {l : List (String × List (String × α))} (h : getD2 u m d l ≠ d) :
    get2 u m l = some (getD2 u m d l) := by
  rcases hg : get2 u m l with _ | w
  · exact absurd (by simp [getD2, hg]) h
  · simp [getD2, hg]

/-- A match's roster data: `db["matches"][name] = {"teams": {...}, "players": [...]}`. -/
structure MatchData where
  teams : List (String × List String)
  players : List String
deriving DecidableEq

/-- A Yes/No question: `db["yon_questions"][qid]`. -/
structure Question where
  question : String
  options : List String
  options_lower : List String
deriving DecidableEq

/-- A pending bet: `db["pending_bets"][user][match] = {"room": ..., "amount": ...}`. -/
structure Bet where
  room : String
  amount : Int
deriving DecidableEq

/-- The shared persisted document `db` with its ten sub-collections. -/
structure Doc where
  «matches» : List (String × MatchData)
  user_teams : List (String × List (String × List String))
  points : List (String × Int)
  amounts : List (String × List (String × Int))
  yon_questions : List (String × Question)
  yon_user_answers : List (String × List (String × String))
  yon_correct_answers : List (String × String)
  pending_bets : List (String × List (String × Bet))
  captains : List (String × List (String × String))
  vice_captains : List (String × List (String × String))
deriving DecidableEq

/-- The full process state: the document, the in-process `locked_matches`
table, and a count of `save_db` calls. -/
structure BotState where
  doc : Doc
  locked_matches : List (String × Bool)
  saves : Nat
deriving DecidableEq

/-- Outcome reported to the acting user by a handler. -/
inductive Res where
  | rendered
  | matchNotFound
  | matchLocked
  | unauthorized
  | teamFullAlert
  | playerNotInSquad
  | captainConflict
  | betNotFound
  | verified
  | noTeamForBet
  | betRequested
  | questionNotFound
  | alreadyAnswered
  | questionClosed
  | notLocked
  | invalidInput
deriving DecidableEq

/-- `locked_matches.get(match, False)`. -/
def lockedGet (m : String) (s : BotState) : Bool :=
  (aget m s.locked_matches).getD false

/-- `/lockmatch` (identical in bot.py and hostthis.py). -/
def lock_match (isAdm : Bool) (m : String) (s : BotState) : BotState × Res :=
  if !isAdm then (s, .unauthorized)
  else if aget m s.doc.«matches» = none then (s, .matchNotFound)
  else ({ s with locked_matches := aset m true s.locked_matches }, .rendered)

/-- `/unlockmatch` (identical in bot.py and hostthis.py). -/
def unlock_match (isAdm : Bool) (m : String) (s : BotState) : BotState × Res :=
  if !isAdm then (s, .unauthorized)
  else if aget m s.doc.«matches» = none then (s, .matchNotFound)
  else if aget m s.locked_matches = none then (s, .notLocked)
  else ({ s with locked_matches := aerase m s.locked_matches }, .rendered)

/-- The `create_<match>` callback: createSquad. -/
def create_cb (u m : String) (s : BotState) : BotState × Res :=
  if aget m s.doc.«matches» = none then (s, .matchNotFound)
  else if lockedGet m s then (s, .matchLocked)
  else ({ s with doc := { s.doc with user_teams := setd2 u m [] s.doc.user_teams } }, .rendered)

/-- The `selectplayer::` callback in bot.py: add if `len < 11 and player not in
team`; otherwise silently re-render. -/
def selectplayer_bot (u m t p : String) (s : BotState) : BotState × Res :=
  if aget m s.doc.«matches» = none then (s, .matchNotFound)
  else if lockedGet m s then (s, .matchLocked)
  else
    let ut := setd2 u m [] s.doc.user_teams
    let cur := getD2 u m [] ut
    if cur.length < 11 ∧ p ∉ cur then
      ({ s with doc := { s.doc with user_teams := set2 u m (cur ++ [p]) ut },
                saves := s.saves + 1 }, .rendered)
    else
      ({ s with doc := { s.doc with user_teams := ut } }, .rendered)

/-- The `selectplayer::` callback in hostthis.py: alert "Team full" at 11,
otherwise add when absent. -/
def selectplayer_host (u m t p : String) (s : BotState) : BotState × Res :=
  if aget m s.doc.«matches» = none then (s, .matchNotFound)
  else if lockedGet m s then (s, .matchLocked)
  else
    let ut := setd2 u m [] s.doc.user_teams
    let cur := getD2 u m [] ut
    if 11 ≤ cur.length then
      ({ s with doc := { s.doc with user_teams := ut } }, .teamFullAlert)
    else if p ∉ cur then
      ({ s with doc := { s.doc with user_teams := set2 u m (cur ++ [p]) ut },
                saves := s.saves + 1 }, .rendered)
    else
      ({ s with doc := { s.doc with user_teams := ut } }, .rendered)

/-- The `removeplayer::` callback (identical in both variants): remove the
player and clear a captain/vice-captain role the player held. -/
def removeplayer (u m p t : String) (s : BotState) : BotState × Res :=
  if aget m s.doc.«matches» = none then (s, .matchNotFound)
  else if lockedGet m s then (s, .matchLocked)
  else
    let cur := getD2 u m [] s.doc.user_teams
    if p ∈ cur then
      ({ s with
         doc := { s.doc with
           user_teams := set2 u m (cur.erase p) s.doc.user_teams,
           captains :=
             if get2 u m s.doc.captains = some p then pop2 u m s.doc.captains
             else s.doc.captains,
           vice_captains :=
             if get2 u m s.doc.vice_captains = some p then pop2 u m s.doc.vice_captains
             else s.doc.vice_captains },
         saves := s.saves + 1 }, .rendered)
    else (s, .rendered)

/-- The `selectcaptain::` callback (identical in both variants). -/
def selectcaptain (u m p : String) (s : BotState) : BotState × Res :=
  if aget m s.doc.«matches» = none then (s, .matchNotFound)
  else if lockedGet m s then (s, .matchLocked)
  else if p ∈ getD2 u m [] s.doc.user_teams then
    ({ s with doc := { s.doc with captains := set2 u m p s.doc.captains },
              saves := s.saves + 1 }, .rendered)
  else (s, .playerNotInSquad)

/-- The `selectvc::` callback in bot.py: rejects the current captain. -/
def selectvc_bot (u m p : String) (s : BotState) : BotState × Res :=
  if aget m s.doc.«matches» = none then (s, .matchNotFound)
  else if lockedGet m s then (s, .matchLocked)
  else if p ∈ getD2 u m [] s.doc.user_teams then
    if get2 u m s.doc.captains = some p then (s, .captainConflict)
    else
      ({ s with doc := { s.doc with vice_captains := set2 u m p s.doc.vice_captains },
                saves := s.saves + 1 }, .rendered)
  else (s, .playerNotInSquad)

/-- The `selectvc::` callback in hostthis.py: no captain check. -/
def selectvc_host (u m p : String) (s : BotState) : BotState × Res :=
  if aget m s.doc.«matches» = none then (s, .matchNotFound)
  else if lockedGet m s then (s, .matchLocked)
  else if p ∈ getD2 u m [] s.doc.user_teams then
    ({ s with doc := { s.doc with vice_captains := set2 u m p s.doc.vice_captains },
              saves := s.saves + 1 }, .rendered)
  else (s, .playerNotInSquad)

/-- The `room::` callback: requestBet.  A falsy squad (absent or empty) is
rejected; otherwise the pending bet is written/overwritten. -/
def room_cb (u m roomName : String) (amount : Int) (s : BotState) : BotState × Res :=
  if aget m s.doc.«matches» = none then (s, .matchNotFound)
  else if lockedGet m s then (s, .matchLocked)
  else if getD2 u m [] s.doc.user_teams = [] then (s, .noTeamForBet)
  else
    ({ s with
       doc := { s.doc with
         pending_bets :=
           set2 u m ({ room := roomName, amount := amount }) s.doc.pending_bets },
       saves := s.saves + 1 }, .betRequested)

/-- The `verify_bet::` callback (identical in both variants): only checks that
some pending bet exists, then records the callback amount and deletes the
pending record. -/
def verify_bet (isAdm : Bool) (u m : String) (amount : Int) (s : BotState) : BotState × Res :=
  if !isAdm then (s, .unauthorized)
  else if get2 u m s.doc.pending_bets = none then (s, .betNotFound)
  else
    ({ s with
       doc := { s.doc with
         amounts := set2 u m amount s.doc.amounts,
         pending_bets := pop2 u m s.doc.pending_bets },
       saves := s.saves + 1 }, .verified)

/-- `/removematch` (identical in both variants). -/
def removematch (isAdm : Bool) (m : String) (s : BotState) : BotState × Res :=
  if !isAdm then (s, .unauthorized)
  else if aget m s.doc.«matches» = none then (s, .matchNotFound)
  else
    ({ doc := { «matches» := aerase m s.doc.«matches»,
                user_teams := eraseAll2 m s.doc.user_teams,
                points := s.doc.points,
                amounts := eraseAll2 m s.doc.amounts,
                yon_questions := s.doc.yon_questions,
                yon_user_answers := s.doc.yon_user_answers,
                yon_correct_answers := s.doc.yon_correct_answers,
                pending_bets := eraseAll2 m s.doc.pending_bets,
                captains := eraseAll2 m s.doc.captains,
                vice_captains := eraseAll2 m s.doc.vice_captains },
       locked_matches := aerase m s.locked_matches,
       saves := s.saves + 1 }, .rendered)

/-- `/yonadd` after argument parsing: assign id `str(len(questions) + 1)`. -/
def yonadd (isAdm : Bool) (q o1 o2 : String) (s : BotState) : BotState × Res :=
  if !isAdm then (s, .unauthorized)
  else if q = "" ∨ o1 = "" ∨ o2 = "" then (s, .invalidInput)
  else
    ({ s with
       doc := { s.doc with
         yon_questions :=
           aset (toString (s.doc.yon_questions.length + 1))
             ({ question := q, options := [o1, o2],
                options_lower := [o1.toLower, o2.toLower] })
             s.doc.yon_questions },
       saves := s.saves + 1 }, .rendered)

/-- `/yonclear`: drop all questions and answers. -/
def yonclear (isAdm : Bool) (s : BotState) : BotState × Res :=
  if !isAdm then (s, .unauthorized)
  else
    ({ s with
       doc := { s.doc with
         yon_questions := [], yon_user_answers := [], yon_correct_answers := [] },
       saves := s.saves + 1 }, .rendered)

/-- Python truthiness of an optional string (`if d.get(k):`). -/
def isTruthyStr : Option String → Bool
  | none => false
  | some c => decide (c ≠ "")

/-- The `yon_answer::` callback in bot.py: no already-answered guard, so the
stored answer is overwritten. -/
def yon_answer_bot (u qid ans : String) (s : BotState) : BotState × Res :=
  if aget qid s.doc.yon_questions = none then (s, .questionNotFound)
  else if isTruthyStr (aget qid s.doc.yon_correct_answers) then (s, .questionClosed)
  else
    ({ s with
       doc := { s.doc with yon_user_answers := set2 u qid ans s.doc.yon_user_answers },
       saves := s.saves + 1 }, .rendered)

/-- The `yon_answer::` callback in hostthis.py: rejects a second answer. -/
def yon_answer_host (u qid ans : String) (s : BotState) : BotState × Res :=
  if aget qid s.doc.yon_questions = none then (s, .questionNotFound)
  else if isTruthyStr (get2 u qid s.doc.yon_user_answers) then (s, .alreadyAnswered)
  else if isTruthyStr (aget qid s.doc.yon_correct_answers) then (s, .questionClosed)
  else
    ({ s with
       doc := { s.doc with yon_user_answers := set2 u qid ans s.doc.yon_user_answers },
       saves := s.saves + 1 }, .rendered)

/-- Code-point comparison of char lists — Python's `<=` on strings. -/
def charListLe : List Char → List Char → Bool
  | [], _ => true
  | _ :: _, [] => false
  | a :: as, b :: bs =>
    if a.toNat < b.toNat then true
    else if a.toNat = b.toNat then charListLe as bs
    else false

/-- Python's lexicographic `<=` on strings. -/
def strLe (a b : String) : Bool := charListLe a.data b.data

/-- Insert into a lexicographically sorted list. -/
def insertSorted (x : String) : List String → List String
  | [] => [x]
  | y :: t => if strLe x y then x :: y :: t else y :: insertSorted x t

/-- Python's `sorted(keys)` — the order used for question navigation. -/
def sortKeys (l : List String) : List String := l.foldr insertSorted []

/-- The list of question ids in creation (insertion) order. -/
def qKeys (s : BotState) : List String := s.doc.yon_questions.map Prod.fst

/-- The empty document, as initialised by both variants. -/
def emptyDoc : Doc :=
  { «matches» := [], user_teams := [], points := [], amounts := [], yon_questions := [],
    yon_user_answers := [], yon_correct_answers := [], pending_bets := [], captains := [],
    vice_captains := [] }

/-- Fresh process state: empty document, nothing locked, nothing saved. -/
def initState : BotState := { doc := emptyDoc, locked_matches := [], saves := 0 }

/-- `n` consecutive `/yonadd` calls from a given state. -/
def addN : Nat → BotState → BotState
  | 0, s => s
  | n + 1, s => (yonadd true "q" "a" "b" (addN n s)).1

/-- Which source file's variant of a divergent handler is meant. -/
inductive Variant where
  | bot
  | host

/-- A squad-editing action: the operations quantified over in the squad
invariant (selectPlayer / removePlayer). -/
inductive SquadOp where
  | select (t p : String)
  | remove (t p : String)

/-- Run one squad-editing action for user `u` on match `m`. -/
def applySquadOp (v : Variant) (u m : String) (s : BotState) (o : SquadOp) : BotState :=
  match o with
  | .select t p =>
    match v with
    | .bot => (selectplayer_bot u m t p s).1
    | .host => (selectplayer_host u m t p s).1
  | .remove t p => (removeplayer u m p t s).1

/-- Any Squad Builder operation. -/
inductive BuilderOp where
  | create
  | select (t p : String)
  | remove (t p : String)
  | setCap (p : String)
  | setVC (p : String)

/-- Run one Squad Builder operation for user `u` on match `m`. -/
def applyBuilderOp (v : Variant) (u m : String) (o : BuilderOp) (s : BotState) : BotState :=
  match o with
  | .create => (create_cb u m s).1
  | .select t p => applySquadOp v u m s (SquadOp.select t p)
  | .remove t p => (removeplayer u m p t s).1
  | .setCap p => (selectcaptain u m p s).1
  | .setVC p =>
    match v with
    | .bot => (selectvc_bot u m p s).1
    | .host => (selectvc_host u m p s).1

/-- Any mutating Squad Builder or Bet Handshake operation on a match. -/
inductive MutOp where
  | create
  | select (v : Variant) (t p : String)
  | remove (t p : String)
  | setCap (p : String)
  | setVC (v : Variant) (p : String)
  | bet (roomName : String) (amount : Int)

/-- Run one mutating operation for user `u` on match `m`. -/
def applyMutOp (u m : String) (o : MutOp) (s : BotState) : BotState × Res :=
  match o with
  | .create => create_cb u m s
  | .select v t p =>
    match v with
    | .bot => selectplayer_bot u m t p s
    | .host => selectplayer_host u m t p s
  | .remove t p => removeplayer u m p t s
  | .setCap p => selectcaptain u m p s
  | .setVC v p =>
    match v with
    | .bot => selectvc_bot u m p s
    | .host => selectvc_host u m p s
  | .bet r a => room_cb u m r a s

/-- A small match roster shared by the concrete test states. -/
def mdM : MatchData := { teams := [("X", ["A", "B", "C"])], players := ["A", "B", "C"] }

/-- Concrete state: user `u` holds a pending Chotu bet of 500 on match `M`. -/
def sBet : BotState :=
  { doc := { emptyDoc with
      «matches» := [("M", mdM)]
      user_teams := [("u", [("M", ["A"])])]
      pending_bets := [("u", [("M", { room := "Chotu", amount := 500 })])] }
    locked_matches := []
    saves := 0 }

/-- Concrete state: user `u` has squad `[A, B]` on `M` with vice-captain `A`
and no captain. -/
def sVice : BotState :=
  { doc := { emptyDoc with
      «matches» := [("M", mdM)]
      user_teams := [("u", [("M", ["A", "B"])])]
      vice_captains := [("u", [("M", "A")])] }
    locked_matches := []
    saves := 0 }

/-- Concrete state: user `u` has the one-player squad `[B]` on `M`. -/
def sOne : BotState :=
  { doc := { emptyDoc with
      «matches» := [("M", mdM)]
      user_teams := [("u", [("M", ["B"])])] }
    locked_matches := []
    saves := 0 }

/-- A full 11-player squad. -/
def squad11 : List String :=
  ["p01", "p02", "p03", "p04", "p05", "p06", "p07", "p08", "p09", "p10", "p11"]

/-- Concrete state: user `u` already has 11 players on `M`. -/
def sFull : BotState :=
  { doc := { emptyDoc with
      «matches» := [("M", mdM)]
      user_teams := [("u", [("M", squad11)])] }
    locked_matches := []
    saves := 0 }

/-- Concrete state: match `M` exists and is locked. -/
def sLocked : BotState :=
  { doc := { emptyDoc with «matches» := [("M", mdM)] }
    locked_matches := [("M", true)]
    saves := 0 }

/-- Concrete state: question `1` exists, user `u` answered `Yes`, and no
correct answer has been recorded. -/
def sAns : BotState :=
  { doc := { emptyDoc with
      yon_questions :=
        [("1", { question := "Will it rain", options := ["Yes", "No"],
                 options_lower := ["yes", "no"] })]
      yon_user_answers := [("u", [("1", "Yes")])] }
    locked_matches := []
    saves := 0 }

/-- Concrete state populated across every sub-collection, with two matches. -/
def sRich : BotState :=
  { doc := { «matches» := [("M", mdM), ("N", mdM)]
             user_teams := [("u", [("M", ["A"]), ("N", ["B"])])]
             points := [("A", 100)]
             amounts := [("u", [("M", 500), ("N", 2500)])]
             yon_questions :=
               [("1", { question := "q", options := ["a", "b"],
                        options_lower := ["a", "b"] })]
             yon_user_answers := [("u", [("1", "a")])]
             yon_correct_answers := [("1", "a")]
             pending_bets := [("u", [("M", { room := "Chotu", amount := 500 })])]
             captains := [("u", [("M", "A"), ("N", "B")])]
             vice_captains := [("u", [("M", "A")])] }
    locked_matches := [("M", true)]
    saves := 0 }

/-- Concrete state: match `M` exists, nothing else set. -/
def sBlank : BotState :=
  { doc := { emptyDoc with «matches» := [("M", mdM)] }
    locked_matches := []
    saves := 0 }

/-- The squad invariant: at most 11 players, no duplicates. -/
def SquadPred (l : List String) : Prop := l.length ≤ 11 ∧ l.Nodup

theorem nodup_append_singleton {l : List String} {p : String}
    (h : l.Nodup) (hp : p ∉ l) : (l ++ [p]).Nodup := by
  induction l with
  | nil => simp
  | cons a t ih =>
    rcases List.nodup_cons.mp h with ⟨ha, ht⟩
    have hp' : p ∉ t := fun hh => hp (List.mem_cons_of_mem _ hh)
    have hap : a ≠ p := fun hh => hp (hh ▸ List.mem_cons_self a t)
    refine List.nodup_cons.mpr ⟨?_, ih ht hp'⟩
    intro hmem
    rcases List.mem_append.mp hmem with h1 | h1
    · exact ha h1
    · rw [List.mem_singleton] at h1
      exact hap h1

theorem getD2_set2_self {α : Type} (u m : String) (d v : α)
    (l : List (String × List (String × α))) : getD2 u m d (set2 u m v l) = v := by
  simp [getD2, get2_set2_self]

theorem teams_selectplayer_bot (u m t p : String) (s : BotState)
    (hm : aget m s.doc.«matches» ≠ none) (hl : lockedGet m s = false) :
    getD2 u m [] (selectplayer_bot u m t p s).1.doc.user_teams =
      (if (getD2 u m [] s.doc.user_teams).length < 11 ∧ p ∉ getD2 u m [] s.doc.user_teams
       then getD2 u m [] s.doc.user_teams ++ [p]
       else getD2 u m [] s.doc.user_teams) := by
  have hd := getD2_setd2 u m ([] : List String) s.doc.user_teams
  by_cases hc : (getD2 u m [] s.doc.user_teams).length < 11 ∧ p ∉ getD2 u m [] s.doc.user_teams
  · simp [selectplayer_bot, hm, hl, hd, hc, getD2_set2_self]
  · simp [selectplayer_bot, hm, hl, hd, hc]

theorem teams_selectplayer_host (u m t p : String) (s : BotState)
    (hm : aget m s.doc.«matches» ≠ none) (hl : lockedGet m s = false) :
    getD2 u m [] (selectplayer_host u m t p s).1.doc.user_teams =
      (if (getD2 u m [] s.doc.user_teams).length < 11 ∧ p ∉ getD2 u m [] s.doc.user_teams
       then getD2 u m [] s.doc.user_teams ++ [p]
       else getD2 u m [] s.doc.user_teams) := by
  have hd := getD2_setd2 u m ([] : List String) s.doc.user_teams
  by_cases h11 : 11 ≤ (getD2 u m [] s.doc.user_teams).length
  · have hc : ¬ ((getD2 u m [] s.doc.user_teams).length < 11 ∧
        p ∉ getD2 u m [] s.doc.user_teams) := fun hh => absurd h11 (by omega)
    simp [selectplayer_host, hm, hl, hd, h11, hc]
  · by_cases hmem : p ∈ getD2 u m [] s.doc.user_teams
    · have hc : ¬ ((getD2 u m [] s.doc.user_teams).length < 11 ∧
          p ∉ getD2 u m [] s.doc.user_teams) := fun hh => hh.2 hmem
      simp [selectplayer_host, hm, hl, hd, h11, hmem, hc]
    · have hc : (getD2 u m [] s.doc.user_teams).length < 11 ∧
          p ∉ getD2 u m [] s.doc.user_teams := ⟨by omega, hmem⟩
      simp [selectplayer_host, hm, hl, hd, h11, hmem, hc, getD2_set2_self]

theorem teams_removeplayer (u m p t : String) (s : BotState)
    (hm : aget m s.doc.«matches» ≠ none) (hl : lockedGet m s = false) :
    getD2 u m [] (removeplayer u m p t s).1.doc.user_teams =
      (if p ∈ getD2 u m [] s.doc.user_teams
       then (getD2 u m [] s.doc.user_teams).erase p
       else getD2 u m [] s.doc.user_teams) := by
  by_cases hmem : p ∈ getD2 u m [] s.doc.user_teams
  · simp [removeplayer, hm, hl, hmem, getD2_set2_self]
  · simp [removeplayer, hm, hl, hmem]

theorem squadPred_step (v : Variant) (u m : String) (s : BotState) (o : SquadOp)
    (h : SquadPred (getD2 u m [] s.doc.user_teams)) :
    SquadPred (getD2 u m [] (applySquadOp v u m s o).doc.user_teams) := by
  by_cases hm : aget m s.doc.«matches» = none
  · cases o <;> cases v <;>
      simpa [applySquadOp, selectplayer_bot, selectplayer_host, removeplayer, hm] using h
  · by_cases hl : lockedGet m s = true
    · cases o <;> cases v <;>
        simpa [applySquadOp, selectplayer_bot, selectplayer_host, removeplayer, hm, hl] using h
    · have hl' : lockedGet m s = false := by simpa using hl
      cases o with
      | select t p =>
        have key :
            getD2 u m [] (applySquadOp v u m s (SquadOp.select t p)).doc.user_teams =
              (if (getD2 u m [] s.doc.user_teams).length < 11 ∧
                  p ∉ getD2 u m [] s.doc.user_teams
               then getD2 u m [] s.doc.user_teams ++ [p]
               else getD2 u m [] s.doc.user_teams) := by
          cases v with
          | bot => exact teams_selectplayer_bot u m t p s hm hl'
          | host => exact teams_selectplayer_host u m t p s hm hl'
        rw [key]
        by_cases hc : (getD2 u m [] s.doc.user_teams).length < 11 ∧
            p ∉ getD2 u m [] s.doc.user_teams
        · rw [if_pos hc]
          refine ⟨by simp; omega, nodup_append_singleton h.2 hc.2⟩
        · rw [if_neg hc]; exact h
      | remove t p =>
        have key := teams_removeplayer u m p t s hm hl'
        have : applySquadOp v u m s (SquadOp.remove t p) = (removeplayer u m p t s).1 := rfl
        rw [this, key]
        by_cases hmem : p ∈ getD2 u m [] s.doc.user_teams
        · rw [if_pos hmem]
          exact ⟨le_trans (List.erase_sublist p _).length_le h.1, h.2.erase p⟩
        · rw [if_neg hmem]; exact h

theorem squadPred_fold (v : Variant) (u m : String) (ops : List SquadOp) (s : BotState)
    (h : SquadPred (getD2 u m [] s.doc.user_teams)) :
    SquadPred (getD2 u m [] (ops.foldl (applySquadOp v u m) s).doc.user_teams) := by
  induction ops generalizing s with
  | nil => exact h
  | cons o rest ih => exact ih (applySquadOp v u m s o) (squadPred_step v u m s o h)

/-- C2: starting from an empty squad, any sequence of selectPlayer and
removePlayer operations (either source variant) leaves the squad with at most
11 players and no duplicate names. -/
theorem C2_squad_bounded_nodup (v : Variant) (u m : String) (ops : List SquadOp)
    (s : BotState) (h : getD2 u m [] s.doc.user_teams = []) :
    (getD2 u m [] (ops.foldl (applySquadOp v u m) s).doc.user_teams).length ≤ 11 ∧
    (getD2 u m [] (ops.foldl (applySquadOp v u m) s).doc.user_teams).Nodup :=
  squadPred_fold v u m ops s (by rw [h]; exact ⟨by simp, List.nodup_nil⟩)

/-- Witness for C2 at a concrete state and operation sequence. -/
theorem C2_witness :
    (getD2 "u" "M" ([] : List String)
      (([SquadOp.select "X" "A", SquadOp.select "X" "A", SquadOp.select "X" "B",
         SquadOp.remove "X" "A"].foldl (applySquadOp Variant.bot "u" "M")
          sBlank).doc.user_teams)).length ≤ 11 ∧
    (getD2 "u" "M" ([] : List String)
      (([SquadOp.select "X" "A", SquadOp.select "X" "A", SquadOp.select "X" "B",
         SquadOp.remove "X" "A"].foldl (applySquadOp Variant.bot "u" "M")
          sBlank).doc.user_teams)).Nodup :=
  C2_squad_bounded_nodup Variant.bot "u" "M"
    [SquadOp.select "X" "A", SquadOp.select "X" "A", SquadOp.select "X" "B",
     SquadOp.remove "X" "A"] sBlank (by decide)

/-- C1 (counterexample): a pending bet of 500 exists, yet `verify_bet` with
amount 2500 is *not* rejected with BetNotFound — it succeeds and records 2500,
so the claim that a mismatched amount is rejected is false. -/
theorem C1_counterexample :
    get2 "u" "M" sBet.doc.pending_bets = some { room := "Chotu", amount := (500 : Int) } ∧
    (verify_bet true "u" "M" 2500 sBet).2 = Res.verified ∧
    get2 "u" "M" (verify_bet true "u" "M" 2500 sBet).1.doc.amounts = some 2500 := by
  decide

/-- C1 (amended): `verify_bet` fails with BetNotFound exactly when no pending
bet exists for `(u, m)` — the amount argument is never compared with the
stored pending amount — and on success it records the argument amount, deletes
the pending record, and a repeated call then fails with BetNotFound. -/
theorem C1_verify_bet_behaviour (u m : String) (a : Int) (s : BotState) :
    ((verify_bet true u m a s).2 = Res.betNotFound ↔ get2 u m s.doc.pending_bets = none) ∧
    (get2 u m s.doc.pending_bets ≠ none →
      get2 u m (verify_bet true u m a s).1.doc.amounts = some a ∧
      get2 u m (verify_bet true u m a s).1.doc.pending_bets = none ∧
      (verify_bet true u m a (verify_bet true u m a s).1).2 = Res.betNotFound) := by
  by_cases h : get2 u m s.doc.pending_bets = none
  · exact ⟨by simp [verify_bet, h], fun hc => absurd h hc⟩
  · have h2 : get2 u m (verify_bet true u m a s).1.doc.pending_bets = none := by
      simp [verify_bet, h, get2_pop2_self]
    refine ⟨by simp [verify_bet, h], fun _ => ⟨by simp [verify_bet, h, get2_set2_self], h2, ?_⟩⟩
    generalize hS : (verify_bet true u m a s).1 = s' at h2 ⊢
    simp [verify_bet, h2]

/-- Witness for C1 at the concrete pending-bet state. -/
theorem C1_witness :
    get2 "u" "M" (verify_bet true "u" "M" 2500 sBet).1.doc.amounts = some 2500 ∧
    get2 "u" "M" (verify_bet true "u" "M" 2500 sBet).1.doc.pending_bets = none ∧
    (verify_bet true "u" "M" 2500 (verify_bet true "u" "M" 2500 sBet).1).2 = Res.betNotFound :=
  (C1_verify_bet_behaviour "u" "M" 2500 sBet).2 (by decide)

/-- C5: while a match's lock flag is set, every mutating Squad Builder / Bet
Handshake operation on it returns MatchLocked with the state unchanged; and
unlocking after locking restores the exact pre-lock state, so all operations
behave as before. -/
theorem C5_lock_gates_mutations (u m : String) (s : BotState) (o : MutOp) :
    (aget m s.doc.«matches» ≠ none → lockedGet m s = true →
      applyMutOp u m o s = (s, Res.matchLocked)) ∧
    (aget m s.doc.«matches» ≠ none → aget m s.locked_matches = none →
      (unlock_match true m (lock_match true m s).1).1 = s) := by
  constructor
  · intro hm hl
    cases o with
    | create => simp [applyMutOp, create_cb, hm, hl]
    | select v t p =>
      cases v with
      | bot => simp [applyMutOp, selectplayer_bot, hm, hl]
      | host => simp [applyMutOp, selectplayer_host, hm, hl]
    | remove t p => simp [applyMutOp, removeplayer, hm, hl]
    | setCap p => simp [applyMutOp, selectcaptain, hm, hl]
    | setVC v p =>
      cases v with
      | bot => simp [applyMutOp, selectvc_bot, hm, hl]
      | host => simp [applyMutOp, selectvc_host, hm, hl]
    | bet r a => simp [applyMutOp, room_cb, hm, hl]
  · intro hm hnl
    have hlock : (lock_match true m s).1 =
        { s with locked_matches := aset m true s.locked_matches } := by
      simp [lock_match, hm]
    rw [hlock]
    have hget : aget m (aset m true s.locked_matches) = some true := aget_aset_self m true _
    simp [unlock_match, hm, hget, aerase_aset_of_none hnl]

/-- Witness for C5: a locked concrete state rejects selectPlayer unchanged,
and lock-then-unlock of an unlocked state is the identity. -/
theorem C5_witness :
    applyMutOp "u" "M" (MutOp.select Variant.bot "X" "C") sLocked = (sLocked, Res.matchLocked) ∧
    (unlock_match true "M" (lock_match true "M" sBlank).1).1 = sBlank :=
  ⟨(C5_lock_gates_mutations "u" "M" sLocked (MutOp.select Variant.bot "X" "C")).1
      (by decide) (by decide),
   (C5_lock_gates_mutations "u" "M" sBlank (MutOp.select Variant.bot "X" "C")).2
      (by decide) (by decide)⟩

/-- C10: `lock_match` and `unlock_match` only touch the in-process
`locked_matches` table — the persisted document (all ten sub-collections) is
unchanged and no `save_db` call is made, for every input. -/
theorem C10_lock_unlock_touch_only_lock_table (isAdm : Bool) (m : String) (s : BotState) :
    (lock_match isAdm m s).1.doc = s.doc ∧ (lock_match isAdm m s).1.saves = s.saves ∧
    (unlock_match isAdm m s).1.doc = s.doc ∧ (unlock_match isAdm m s).1.saves = s.saves := by
  unfold lock_match unlock_match
  refine ⟨?_, ?_, ?_, ?_⟩ <;> (repeat' split) <;> rfl

/-- An optional role holder, when set, is a member of the squad. -/
def roleOk (r : Option String) (squad : List String) : Bool :=
  match r with
  | none => true
  | some c => decide (c ∈ squad)

/-- The role part of the squad invariant for `(u, m)`: captain and
vice-captain, when set, are elements of the squad's player list. -/
def RoleInv (u m : String) (s : BotState) : Prop :=
  roleOk (get2 u m s.doc.captains) (getD2 u m [] s.doc.user_teams) = true ∧
  roleOk (get2 u m s.doc.vice_captains) (getD2 u m [] s.doc.user_teams) = true

theorem roleOk_iff {r : Option String} {squad : List String} :
    roleOk r squad = true ↔ ∀ c, r = some c → c ∈ squad := by
  cases r with
  | none => simp [roleOk]
  | some c => simp [roleOk]

theorem roleOk_append {r : Option String} {squad : List String}
    (h : roleOk r squad = true) (p : String) : roleOk r (squad ++ [p]) = true := by
  rw [roleOk_iff] at h ⊢
  exact fun c hc => List.mem_append_left _ (h c hc)

theorem roleOk_erase {r : Option String} {squad : List String} {p : String}
    (h : roleOk r squad = true) (hne : r ≠ some p) :
    roleOk r (squad.erase p) = true := by
  rw [roleOk_iff] at h ⊢
  intro c hc
  have hcp : c ≠ p := fun hh => hne (hh ▸ hc)
  exact (List.mem_erase_of_ne hcp).mpr (h c hc)

theorem roleInv_step (v : Variant) (u m : String) (o : BuilderOp) (s : BotState)
    (h : RoleInv u m s) : RoleInv u m (applyBuilderOp v u m o s) := by
  by_cases hm : aget m s.doc.«matches» = none
  · cases o <;> cases v <;>
      simpa [applyBuilderOp, applySquadOp, create_cb, selectplayer_bot, selectplayer_host,
        removeplayer, selectcaptain, selectvc_bot, selectvc_host, hm] using h
  · by_cases hl : lockedGet m s = true
    · cases o <;> cases v <;>
        simpa [applyBuilderOp, applySquadOp, create_cb, selectplayer_bot, selectplayer_host,
          removeplayer, selectcaptain, selectvc_bot, selectvc_host, hm, hl] using h
    · have hl' : lockedGet m s = false := by simpa using hl
      have hd := getD2_setd2 u m ([] : List String) s.doc.user_teams
      cases o with
      | create =>
        refine ⟨?_, ?_⟩
        · simpa [applyBuilderOp, create_cb, hm, hl', hd] using h.1
        · simpa [applyBuilderOp, create_cb, hm, hl', hd] using h.2
      | select t p =>
        have key :
            getD2 u m [] (applySquadOp v u m s (SquadOp.select t p)).doc.user_teams =
              (if (getD2 u m [] s.doc.user_teams).length < 11 ∧
                  p ∉ getD2 u m [] s.doc.user_teams
               then getD2 u m [] s.doc.user_teams ++ [p]
               else getD2 u m [] s.doc.user_teams) := by
          cases v with
          | bot => exact teams_selectplayer_bot u m t p s hm hl'
          | host => exact teams_selectplayer_host u m t p s hm hl'
        have hcap : get2 u m (applySquadOp v u m s (SquadOp.select t p)).doc.captains =
            get2 u m s.doc.captains := by
          cases v <;> simp only [applySquadOp, selectplayer_bot, selectplayer_host] <;>
            (repeat' split) <;> rfl
        have hvc : get2 u m (applySquadOp v u m s (SquadOp.select t p)).doc.vice_captains =
            get2 u m s.doc.vice_captains := by
          cases v <;> simp only [applySquadOp, selectplayer_bot, selectplayer_host] <;>
            (repeat' split) <;> rfl
        refine ⟨?_, ?_⟩ <;> rw [show applyBuilderOp v u m (BuilderOp.select t p) s =
            applySquadOp v u m s (SquadOp.select t p) from rfl, key]
        · rw [hcap]
          split
          · exact roleOk_append h.1 p
          · exact h.1
        · rw [hvc]
          split
          · exact roleOk_append h.2 p
          · exact h.2
      | remove t p =>
        by_cases hmem : p ∈ getD2 u m [] s.doc.user_teams
        · have key := teams_removeplayer u m p t s hm hl'
          rw [if_pos hmem] at key
          have hres : applyBuilderOp v u m (BuilderOp.remove t p) s =
              (removeplayer u m p t s).1 := rfl
          constructor <;> rw [hres, key]
          · by_cases hcap : get2 u m s.doc.captains = some p
            · have : get2 u m (removeplayer u m p t s).1.doc.captains = none := by
                simp [removeplayer, hm, hl', hmem, hcap, get2_pop2_self]
              rw [this]
              simp [roleOk]
            · have : get2 u m (removeplayer u m p t s).1.doc.captains =
                  get2 u m s.doc.captains := by
                simp [removeplayer, hm, hl', hmem, hcap]
              rw [this]
              exact roleOk_erase h.1 hcap
          · by_cases hvc : get2 u m s.doc.vice_captains = some p
            · have : get2 u m (removeplayer u m p t s).1.doc.vice_captains = none := by
                simp [removeplayer, hm, hl', hmem, hvc, get2_pop2_self]
              rw [this]
              simp [roleOk]
            · have : get2 u m (removeplayer u m p t s).1.doc.vice_captains =
                  get2 u m s.doc.vice_captains := by
                simp [removeplayer, hm, hl', hmem, hvc]
              rw [this]
              exact roleOk_erase h.2 hvc
        · simpa [applyBuilderOp, removeplayer, hm, hl', hmem] using h
      | setCap p =>
        by_cases hmem : p ∈ getD2 u m [] s.doc.user_teams
        · constructor
          · simp [applyBuilderOp, selectcaptain, hm, hl', hmem, get2_set2_self, roleOk]
          · simpa [applyBuilderOp, selectcaptain, hm, hl', hmem] using h.2
        · simpa [applyBuilderOp, selectcaptain, hm, hl', hmem] using h
      | setVC p =>
        cases v with
        | bot =>
          by_cases hmem : p ∈ getD2 u m [] s.doc.user_teams
          · by_cases hcap : get2 u m s.doc.captains = some p
            · simpa [applyBuilderOp, selectvc_bot, hm, hl', hmem, hcap] using h
            · constructor
              · simpa [applyBuilderOp, selectvc_bot, hm, hl', hmem, hcap] using h.1
              · simp [applyBuilderOp, selectvc_bot, hm, hl', hmem, hcap, get2_set2_self,
                  roleOk]
          · simpa [applyBuilderOp, selectvc_bot, hm, hl', hmem] using h
        | host =>
          by_cases hmem : p ∈ getD2 u m [] s.doc.user_teams
          · constructor
            · simpa [applyBuilderOp, selectvc_host, hm, hl', hmem] using h.1
            · simp [applyBuilderOp, selectvc_host, hm, hl', hmem, get2_set2_self, roleOk]
          · simpa [applyBuilderOp, selectvc_host, hm, hl', hmem] using h

/-- C3 (counterexample): from a state satisfying the invariant, with
vice-captain `A` and no captain, `selectcaptain` of `A` succeeds and leaves
captain = vice-captain = `A` — the code never compares the new captain with
the vice-captain, so "captain and vice-captain are never equal" is false. -/
theorem C3_counterexample :
    RoleInv "u" "M" sVice ∧
    get2 "u" "M" sVice.doc.captains = none ∧
    get2 "u" "M" sVice.doc.vice_captains = some "A" ∧
    (selectcaptain "u" "M" "A" sVice).2 = Res.rendered ∧
    get2 "u" "M" (selectcaptain "u" "M" "A" sVice).1.doc.captains = some "A" ∧
    get2 "u" "M" (selectcaptain "u" "M" "A" sVice).1.doc.vice_captains = some "A" := by
  refine ⟨⟨by decide, by decide⟩, by decide, by decide, by decide, by decide, by decide⟩

/-- C3 (amended): every Squad Builder operation, in either variant, preserves
membership of the set captain and vice-captain in the squad, and a successful
removePlayer(p) clears whichever of the two roles p held; the roles can
however become equal, since setCaptain does not exclude the vice-captain. -/
theorem C3_roles_member_and_cleared (v : Variant) (u m : String) (s : BotState)
    (h : RoleInv u m s) :
    (∀ o : BuilderOp, RoleInv u m (applyBuilderOp v u m o s)) ∧
    (∀ t p : String, aget m s.doc.«matches» ≠ none → lockedGet m s = false →
      get2 u m (removeplayer u m p t s).1.doc.captains ≠ some p ∧
      get2 u m (removeplayer u m p t s).1.doc.vice_captains ≠ some p) := by
  refine ⟨fun o => roleInv_step v u m o s h, fun t p hm hl => ?_⟩
  by_cases hmem : p ∈ getD2 u m [] s.doc.user_teams
  · constructor
    · by_cases hcap : get2 u m s.doc.captains = some p
      · simp [removeplayer, hm, hl, hmem, hcap, get2_pop2_self]
      · simpa [removeplayer, hm, hl, hmem, hcap] using hcap
    · by_cases hvc : get2 u m s.doc.vice_captains = some p
      · simp [removeplayer, hm, hl, hmem, hvc, get2_pop2_self]
      · simpa [removeplayer, hm, hl, hmem, hvc] using hvc
  · have hres : (removeplayer u m p t s).1 = s := by
      simp [removeplayer, hm, hl, hmem]
    rw [hres]
    constructor
    · intro hc
      exact hmem (roleOk_iff.mp h.1 p hc)
    · intro hc
      exact hmem (roleOk_iff.mp h.2 p hc)

/-- Witness for C3 at a concrete state: setting captain `A` preserves the
membership invariant, and removing `A` clears both roles. -/
theorem C3_witness :
    RoleInv "u" "M" (applyBuilderOp Variant.bot "u" "M" (BuilderOp.setCap "A") sVice) ∧
    get2 "u" "M" (removeplayer "u" "M" "A" "X" sVice).1.doc.captains ≠ some "A" ∧
    get2 "u" "M" (removeplayer "u" "M" "A" "X" sVice).1.doc.vice_captains ≠ some "A" := by
  have h := C3_roles_member_and_cleared Variant.bot "u" "M" sVice ⟨by decide, by decide⟩
  exact ⟨h.1 (BuilderOp.setCap "A"),
         (h.2 "X" "A" (by decide) (by decide)).1,
         (h.2 "X" "A" (by decide) (by decide)).2⟩

/-- C4 (code bug in bot.py): with an answer `Yes` already recorded for
question 1 and the question still open, bot.py's handler accepts a second
answer and overwrites the stored answer with `No`, while hostthis.py rejects
it with an alert and leaves the state untouched. -/
theorem C4_bot_overwrites_host_rejects :
    get2 "u" "1" sAns.doc.yon_user_answers = some "Yes" ∧
    (yon_answer_bot "u" "1" "No" sAns).2 = Res.rendered ∧
    get2 "u" "1" (yon_answer_bot "u" "1" "No" sAns).1.doc.yon_user_answers = some "No" ∧
    (yon_answer_host "u" "1" "No" sAns).2 = Res.alreadyAnswered ∧
    (yon_answer_host "u" "1" "No" sAns).1 = sAns := by
  decide

/-- C6 (counterexample): with the one-player squad `[B]` and no captain,
`selectvc_bot` of `B` succeeds and sets the vice-captain, so the claimed
InsufficientPlayers failure for squads smaller than 2 does not exist. -/
theorem C6_counterexample :
    (getD2 "u" "M" ([] : List String) sOne.doc.user_teams).length = 1 ∧
    get2 "u" "M" sOne.doc.captains = none ∧
    (selectvc_bot "u" "M" "B" sOne).2 = Res.rendered ∧
    get2 "u" "M" (selectvc_bot "u" "M" "B" sOne).1.doc.vice_captains = some "B" := by
  decide

/-- C6 (amended): on an existing unlocked match, `selectvc` fails with
PlayerNotInSquad exactly when p is outside the squad; the bot variant fails
with CaptainConflict exactly when p is the current captain and succeeds
exactly when p is in the squad and not the captain; the host variant succeeds
whenever p is in the squad; squad size is never checked. -/
theorem C6_selectvc_behaviour (u m p : String) (s : BotState)
    (hm : aget m s.doc.«matches» ≠ none) (hl : lockedGet m s = false) :
    ((selectvc_bot u m p s).2 = Res.playerNotInSquad ↔
      p ∉ getD2 u m [] s.doc.user_teams) ∧
    ((selectvc_bot u m p s).2 = Res.captainConflict ↔
      p ∈ getD2 u m [] s.doc.user_teams ∧ get2 u m s.doc.captains = some p) ∧
    ((selectvc_bot u m p s).2 = Res.rendered ↔
      p ∈ getD2 u m [] s.doc.user_teams ∧ get2 u m s.doc.captains ≠ some p) ∧
    ((selectvc_bot u m p s).2 = Res.rendered →
      get2 u m (selectvc_bot u m p s).1.doc.vice_captains = some p) ∧
    ((selectvc_host u m p s).2 = Res.rendered ↔ p ∈ getD2 u m [] s.doc.user_teams) ∧
    ((selectvc_host u m p s).2 = Res.rendered →
      get2 u m (selectvc_host u m p s).1.doc.vice_captains = some p) := by
  by_cases hmem : p ∈ getD2 u m [] s.doc.user_teams
  · by_cases hcap : get2 u m s.doc.captains = some p
    · refine ⟨?_, ?_, ?_, ?_, ?_, ?_⟩ <;>
        simp [selectvc_bot, selectvc_host, hm, hl, hmem, hcap, get2_set2_self]
    · refine ⟨?_, ?_, ?_, ?_, ?_, ?_⟩ <;>
        simp [selectvc_bot, selectvc_host, hm, hl, hmem, hcap, get2_set2_self]
  · refine ⟨?_, ?_, ?_, ?_, ?_, ?_⟩ <;>
      simp [selectvc_bot, selectvc_host, hm, hl, hmem]

/-- Witness for C6 at concrete states. -/
theorem C6_witness :
    (selectvc_bot "u" "M" "Z" sOne).2 = Res.playerNotInSquad ∧
    (selectvc_host "u" "M" "B" sOne).2 = Res.rendered := by
  have h1 := C6_selectvc_behaviour "u" "M" "Z" sOne (by decide) (by decide)
  have h2 := C6_selectvc_behaviour "u" "M" "B" sOne (by decide) (by decide)
  exact ⟨h1.1.mpr (by decide), h2.2.2.2.2.1.mpr (by decide)⟩

/-- C7 (counterexample): bot.py's selectPlayer on a full 11-player squad
leaves the state unchanged but reports no error at all (it just re-renders),
so the claimed TeamFull rejection does not occur in that variant. -/
theorem C7_counterexample :
    (getD2 "u" "M" ([] : List String) sFull.doc.user_teams).length = 11 ∧
    (selectplayer_bot "u" "M" "X" "p12" sFull).1 = sFull ∧
    (selectplayer_bot "u" "M" "X" "p12" sFull).2 = Res.rendered := by
  decide

/-- C7 (amended): on an existing unlocked match, selectPlayer on a full squad
leaves the state unchanged — hostthis.py alerts TeamFull while bot.py reports
no error — and selectPlayer of an already-selected player is a silent no-op in
both variants. -/
theorem C7_selectplayer_full_or_present (u m t p : String) (s : BotState)
    (hm : aget m s.doc.«matches» ≠ none) (hl : lockedGet m s = false) :
    (11 ≤ (getD2 u m [] s.doc.user_teams).length →
      (selectplayer_bot u m t p s).1 = s ∧ (selectplayer_bot u m t p s).2 = Res.rendered ∧
      (selectplayer_host u m t p s).1 = s ∧
      (selectplayer_host u m t p s).2 = Res.teamFullAlert) ∧
    (p ∈ getD2 u m [] s.doc.user_teams →
      (selectplayer_bot u m t p s).1 = s ∧ (selectplayer_bot u m t p s).2 = Res.rendered ∧
      ((getD2 u m [] s.doc.user_teams).length < 11 →
        (selectplayer_host u m t p s).1 = s ∧
        (selectplayer_host u m t p s).2 = Res.rendered)) := by
  constructor
  · intro h11
    have hne : getD2 u m ([] : List String) s.doc.user_teams ≠ [] := by
      intro hh
      rw [hh] at h11
      simp at h11
    have hsd : setd2 u m ([] : List String) s.doc.user_teams = s.doc.user_teams :=
      setd2_of_get2_some (get2_of_getD2_ne hne) []
    have hc : ¬ ((getD2 u m [] s.doc.user_teams).length < 11 ∧
        p ∉ getD2 u m [] s.doc.user_teams) := by
      intro hh
      have := hh.1
      omega
    refine ⟨?_, ?_, ?_, ?_⟩
    · simp [selectplayer_bot, hm, hl, hsd, hc]
    · simp [selectplayer_bot, hm, hl, hsd, hc]
    · simp [selectplayer_host, hm, hl, hsd, h11]
    · simp [selectplayer_host, hm, hl, hsd, h11]
  · intro hmem
    have hne : getD2 u m ([] : List String) s.doc.user_teams ≠ [] := by
      intro hh
      rw [hh] at hmem
      simp at hmem
    have hsd : setd2 u m ([] : List String) s.doc.user_teams = s.doc.user_teams :=
      setd2_of_get2_some (get2_of_getD2_ne hne) []
    have hc : ¬ ((getD2 u m [] s.doc.user_teams).length < 11 ∧
        p ∉ getD2 u m [] s.doc.user_teams) := fun hh => hh.2 hmem
    refine ⟨?_, ?_, fun h11 => ⟨?_, ?_⟩⟩
    · simp [selectplayer_bot, hm, hl, hsd, hc]
    · simp [selectplayer_bot, hm, hl, hsd, hc]
    · have h11' : ¬ 11 ≤ (getD2 u m [] s.doc.user_teams).length := by omega
      simp [selectplayer_host, hm, hl, hsd, h11', hmem]
    · have h11' : ¬ 11 ≤ (getD2 u m [] s.doc.user_teams).length := by omega
      simp [selectplayer_host, hm, hl, hsd, h11', hmem]

/-- Witness for C7 at the full-squad state and an already-present player. -/
theorem C7_witness :
    (selectplayer_host "u" "M" "X" "p12" sFull).2 = Res.teamFullAlert ∧
    (selectplayer_bot "u" "M" "X" "B" sOne).1 = sOne := by
  have h1 := (C7_selectplayer_full_or_present "u" "M" "X" "p12" sFull
    (by decide) (by decide)).1 (by decide)
  have h2 := (C7_selectplayer_full_or_present "u" "M" "X" "B" sOne
    (by decide) (by decide)).2 (by decide)
  exact ⟨h1.2.2.2, h2.1⟩

/-- C8 (counterexample): after ten questions the ids run "1".."10" in creation
order, but the lexicographic sort used for navigation places "10" before "2",
so it does not coincide with creation order; and after `yonclear` the next
question is assigned the previously used id "1" again. -/
theorem C8_counterexample :
    qKeys (addN 10 initState) = ["1", "2", "3", "4", "5", "6", "7", "8", "9", "10"] ∧
    sortKeys (qKeys (addN 10 initState)) =
      ["1", "10", "2", "3", "4", "5", "6", "7", "8", "9"] ∧
    sortKeys (qKeys (addN 10 initState)) ≠ qKeys (addN 10 initState) ∧
    qKeys (yonadd true "q" "a" "b" (yonclear true (addN 2 initState)).1).1 = ["1"] := by
  decide

/-- C8 (amended): `yonadd` stores the new question under id
`str(len(questions) + 1)`, so ids are assigned sequentially from "1"; the
lexicographic navigation order equals creation order while at most 9 questions
exist; and after `yonclear` the numbering restarts, reusing id "1". -/
theorem C8_sequential_ids :
    (∀ (s : BotState) (q o1 o2 : String), q ≠ "" → o1 ≠ "" → o2 ≠ "" →
      aget (toString (s.doc.yon_questions.length + 1))
          (yonadd true q o1 o2 s).1.doc.yon_questions =
        some { question := q, options := [o1, o2],
               options_lower := [o1.toLower, o2.toLower] }) ∧
    (∀ n : Nat, n < 10 →
      qKeys (addN n initState) = (List.range n).map (fun i => toString (i + 1)) ∧
      sortKeys (qKeys (addN n initState)) = qKeys (addN n initState)) ∧
    qKeys (yonadd true "q" "a" "b" (yonclear true (addN 2 initState)).1).1 = ["1"] := by
  refine ⟨?_, by decide, by decide⟩
  intro s q o1 o2 hq h1 h2
  have hc : ¬ (q = "" ∨ o1 = "" ∨ o2 = "") := by
    intro hh
    rcases hh with hh | hh | hh
    exacts [hq hh, h1 hh, h2 hh]
  simp [yonadd, hc, aget_aset_self]

/-- Witness for C8: the first question gets id "1", and with three questions
the navigation order equals creation order. -/
theorem C8_witness :
    aget (toString (initState.doc.yon_questions.length + 1))
        (yonadd true "q" "a" "b" initState).1.doc.yon_questions =
      some { question := "q", options := ["a", "b"],
             options_lower := ["a".toLower, "b".toLower] } ∧
    (qKeys (addN 3 initState) = (List.range 3).map (fun i => toString (i + 1)) ∧
     sortKeys (qKeys (addN 3 initState)) = qKeys (addN 3 initState)) :=
  ⟨C8_sequential_ids.1 initState "q" "a" "b" (by decide) (by decide) (by decide),
   C8_sequential_ids.2.1 3 (by decide)⟩

/-- C9: removing an existing match deletes its catalog entry, every user's
squad, pending bet, verified amount, captain and vice-captain for that match
and clears its lock flag, while points, questions, user answers, correct
answers, other matches and their per-user data are all unchanged. -/
theorem C9_removematch_cascade_and_frame (m : String) (s : BotState)
    (hm : aget m s.doc.«matches» ≠ none) :
    aget m (removematch true m s).1.doc.«matches» = none ∧
    (∀ u : String,
      get2 u m (removematch true m s).1.doc.user_teams = none ∧
      get2 u m (removematch true m s).1.doc.pending_bets = none ∧
      get2 u m (removematch true m s).1.doc.amounts = none ∧
      get2 u m (removematch true m s).1.doc.captains = none ∧
      get2 u m (removematch true m s).1.doc.vice_captains = none) ∧
    aget m (removematch true m s).1.locked_matches = none ∧
    (removematch true m s).1.doc.points = s.doc.points ∧
    (removematch true m s).1.doc.yon_questions = s.doc.yon_questions ∧
    (removematch true m s).1.doc.yon_user_answers = s.doc.yon_user_answers ∧
    (removematch true m s).1.doc.yon_correct_answers = s.doc.yon_correct_answers ∧
    (∀ u m' : String, m' ≠ m →
      aget m' (removematch true m s).1.doc.«matches» = aget m' s.doc.«matches» ∧
      lockedGet m' (removematch true m s).1 = lockedGet m' s ∧
      get2 u m' (removematch true m s).1.doc.user_teams = get2 u m' s.doc.user_teams ∧
      get2 u m' (removematch true m s).1.doc.pending_bets = get2 u m' s.doc.pending_bets ∧
      get2 u m' (removematch true m s).1.doc.amounts = get2 u m' s.doc.amounts ∧
      get2 u m' (removematch true m s).1.doc.captains = get2 u m' s.doc.captains ∧
      get2 u m' (removematch true m s).1.doc.vice_captains =
        get2 u m' s.doc.vice_captains) := by
  refine ⟨?_, fun u => ⟨?_, ?_, ?_, ?_, ?_⟩, ?_, ?_, ?_, ?_, ?_, fun u m' hne => ?_⟩
  · simp [removematch, hm, aget_aerase_self]
  · simp [removematch, hm, get2_eraseAll2_self]
  · simp [removematch, hm, get2_eraseAll2_self]
  · simp [removematch, hm, get2_eraseAll2_self]
  · simp [removematch, hm, get2_eraseAll2_self]
  · simp [removematch, hm, get2_eraseAll2_self]
  · simp [removematch, hm, aget_aerase_self]
  · simp [removematch, hm]
  · simp [removematch, hm]
  · simp [removematch, hm]
  · simp [removematch, hm]
  · refine ⟨?_, ?_, ?_, ?_, ?_, ?_, ?_⟩ <;>
      simp [removematch, hm, lockedGet, aget_aerase_ne hne, get2_eraseAll2_ne hne]

/-- Witness for C9 at the populated two-match state. -/
theorem C9_witness :
    get2 "u" "M" (removematch true "M" sRich).1.doc.user_teams = none ∧
    get2 "u" "N" (removematch true "M" sRich).1.doc.user_teams =
      get2 "u" "N" sRich.doc.user_teams ∧
    (removematch true "M" sRich).1.doc.points = sRich.doc.points ∧
    aget "M" (removematch true "M" sRich).1.locked_matches = none := by
  have h := C9_removematch_cascade_and_frame "M" sRich (by decide)
  exact ⟨(h.2.1 "u").1, (h.2.2.2.2.2.2.2 "u" "N" (by decide)).2.2.1,
         h.2.2.2.1, h.2.2.1⟩
